import Mathlib

/-!
Verification of the Carla JUCE engine driver (`source/backend/engine/CarlaEngineJuce.cpp`).

The definitions below are a shallow embedding of the driver code: pure fragments become
Lean functions, the engine/device state becomes an explicit record that operations
transform, and interactions with the hardware device (channel enumeration, the result of
`AudioIODevice::open`, effective buffer size and sample rate after a reopen) are passed
in as explicit environment values, since the hardware is outside the program.
Machine integers are modelled as `Nat`/`Int`, with `% 2^32` written out exactly where the
C++ code performs a truncating cast to `uint32_t`.
-/

namespace Carla

/-- `EngineMidiEvent::kDataSize`: fixed maximum inline MIDI payload size.
Modelled from the spec: the constant lives in the engine headers outside the sources in
scope; the spec only requires "a byte payload bounded by a fixed maximum inline size". -/
def kDataSize : Nat := 4

/-- `kMaxEngineEventInternalCount`: fixed maximum number of engine events per period.
Modelled from the spec: the constant lives in the engine internals outside the sources in
scope; the spec only requires "a fixed maximum count per period". -/
def kMaxEngineEventInternalCount : Nat := 512

/-- `2^32`, the modulus of a truncating cast to `uint32_t`. -/
def u32Mod : Nat := 4294967296

/-- `RtMidiEvent` (CarlaEngineJuce.cpp lines 56-60): a raw MIDI event with an absolute
arrival timestamp in frames (`uint64_t time`), a payload size and the payload bytes. -/
structure RtMidiEvent where
  time : Nat
  size : Nat
  data : List Nat
deriving DecidableEq, Repr

/-- The per-event Engine Event time computation of `audioDeviceIOCallback`
(CarlaEngineJuce.cpp lines 637-647), as a function of the period start
(`pData->timeInfo.frame`), the period length (`nframes`) and the raw event timestamp:
events before the period start get time 0; events at or after the period end get
`uint32(frame) + nframes - 1` in `uint32_t` arithmetic (written here as addition of
`u32Mod - 1` so that the wrap-around at 0 is exact); in-range events get
`uint32(time - frame)`. -/
def clampEventTime (frame nframes t : Nat) : Nat :=
  if t < frame then 0
  else if frame + nframes ≤ t then (frame % u32Mod + nframes + (u32Mod - 1)) % u32Mod
  else (t - frame) % u32Mod

/-- The event-time part of the MIDI drain loop of `audioDeviceIOCallback`
(CarlaEngineJuce.cpp lines 630-653): events with `size = 0` are skipped
(`CARLA_SAFE_ASSERT_CONTINUE`), accepted events get their clamped time, and the loop
stops once `kMaxEngineEventInternalCount` events have been written (`fuel` is the
remaining capacity, initially `kMaxEngineEventInternalCount`). -/
def drainOffsets (frame nframes : Nat) (fuel : Nat) : List RtMidiEvent → List Nat
  | [] => []
  | e :: rest =>
    if e.size = 0 then drainOffsets frame nframes fuel rest
    else
      match fuel with
      | 0 => []
      | f + 1 => clampEventTime frame nframes e.time :: drainOffsets frame nframes f rest

/-- `handleIncomingMidiMessage` (CarlaEngineJuce.cpp lines 731-752): messages whose raw
size is non-positive or exceeds `kDataSize` are dropped; otherwise an `RtMidiEvent` is
appended to the pending queue whose `time` field is always 0 (the code literally writes
`midiEvent.time = 0; // TODO`), whose payload is the message bytes padded to
`kDataSize` with zeros. -/
def handleIncomingMidiMessage (messageSize : Int) (messageData : List Nat) :
    Option RtMidiEvent :=
  if messageSize ≤ 0 ∨ messageSize > (kDataSize : Int) then none
  else some
    { time := 0
      size := messageSize.toNat
      data := (messageData.take messageSize.toNat) ++
              List.replicate (kDataSize - messageSize.toNat) 0 }

/-- `carla_zeroFloats(buf, n)`: a buffer of `n` zero samples. -/
def carla_zeroFloats (n : Nat) : List Int := List.replicate n 0

/-- The zeroing loop of `audioDeviceIOCallback` (lines 618-619): the first
`numOutputChannels` output buffers are overwritten with `nframes` zeros, the rest of the
delivered array (if any) is untouched. -/
def zeroOutputs (numOutputChannels nframes : Nat) (outputs : List (List Int)) :
    List (List Int) :=
  (outputs.take numOutputChannels).map (fun _ => carla_zeroFloats nframes) ++
    outputs.drop numOutputChannels

/-- The output-buffer behaviour of `audioDeviceIOCallback`
(CarlaEngineJuce.cpp lines 603-659): the callback returns early — leaving the delivered
output buffers exactly as they were — on any of the `CARLA_SAFE_ASSERT_RETURN` checks
(`numSamples >= 0` at line 606, `numInputChannels >= 0` / `numOutputChannels > 0` /
`outputChannelData != nullptr` at lines 612-614, and `numSamples == pData->bufferSize`
at line 615); only after all of them pass does it zero the output buffers (lines
618-619) and hand them to the processing graph (`graphProcess` stands for
`pData->graph.process`, which writes the rendered samples into the zeroed buffers). -/
def audioDeviceIOCallbackOutputs (bufferSize : Nat)
    (graphProcess : List (List Int) → List (List Int))
    (numInputChannels numOutputChannels numSamples : Int)
    (outputDataValid : Bool) (outputs : List (List Int)) : List (List Int) :=
  if numSamples < 0 then outputs
  else if numInputChannels < 0 then outputs
  else if ¬ 0 < numOutputChannels then outputs
  else if ¬ outputDataValid then outputs
  else if numSamples ≠ (bufferSize : Int) then outputs
  else graphProcess (zeroOutputs numOutputChannels.toNat bufferSize outputs)

/-- `getTotalXruns` (CarlaEngineJuce.cpp lines 336-349), as a function of the
hardware-reported count (`fDevice->getXRunCount()`, a signed `int`) and the stored
baseline (`pData->xruns`): non-positive hardware counts report 0; otherwise the count is
cast to unsigned and the delta over the baseline is reported, 0 when the count does not
exceed the baseline. -/
def getTotalXruns (hardware : Int) (baseline : Nat) : Nat :=
  if hardware ≤ 0 then 0
  else if hardware.toNat ≤ baseline then 0
  else hardware.toNat - baseline

/-- `clearXruns` (CarlaEngineJuce.cpp lines 351-355): the new baseline stored into
`pData->xruns` — the current hardware count floored at 0. -/
def clearXruns (hardware : Int) : Nat :=
  if hardware > 0 then hardware.toNat else 0

/-- The engine process modes of `EngineProcessMode` relevant to this driver
(`ENGINE_PROCESS_MODE_*`). -/
inductive ProcessMode
  | singleClient
  | multipleClients
  | continuousRack
  | patchbay
  | bridge
deriving DecidableEq, Repr

/-- Notifications emitted through `CarlaEngine::callback`, `sampleRateChanged` and
`bufferSizeChanged`. -/
inductive EngineCallback
  | engineStarted
  | sampleRateChanged (rate : ℚ)
  | bufferSizeChanged (size : Nat)
  | connectionAdded (id : Nat) (payload : String)
  | patchbayRefreshed (deviceLabel : String)
deriving DecidableEq, Repr

/-- The driver state visible to the claims: whether `fDevice` is non-null, whether the
device reports open / playing, the cached `pData->bufferSize` and `pData->sampleRate`,
whether `pData->graph` is ready, the open MIDI endpoints (`fMidiIns` / `fMidiOuts`,
each a `(name, identifier)` pair), and the retrievable last error. Sample rates are
modelled as exact rationals; `carla_isNotEqual` on `double` is modelled as exact
inequality, which is faithful for the integral sample rates the devices report. -/
structure EngineState where
  hasDevice : Bool
  deviceOpen : Bool
  devicePlaying : Bool
  bufferSize : Nat
  sampleRate : ℚ
  graphReady : Bool
  midiIns : List (String × String)
  midiOuts : List (String × String)
  lastError : Option String
deriving DecidableEq, Repr

/-- `CarlaEngine::isRunning` for this driver (CarlaEngineJuce.cpp lines 309-312):
`fDevice != nullptr && fDevice->isOpen()`. -/
def isRunning (st : EngineState) : Bool :=
  st.hasDevice && st.deviceOpen

/-- `close` (CarlaEngineJuce.cpp lines 251-302): stops the stream if playing, clears
the engine data and destroys the graph, stops and deletes every open MIDI input and
output endpoint and clears both registries, then closes and releases the device handle
(`fDevice = nullptr`). `lastError` is left as it was. -/
def closeEngine (st : EngineState) : EngineState :=
  { st with
    hasDevice := false
    deviceOpen := false
    devicePlaying := false
    graphReady := false
    midiIns := []
    midiOuts := [] }

/-- The device-side environment of `setBufferSizeAndSampleRate`: the channel counts
reported by the device, the outcome of `AudioIODevice::open` as a function of the
requested sample rate and buffer size (`none` = success, `some err` = the error
string), and the effective buffer size / sample rate the device reports after a
successful reopen. -/
structure DeviceEnv where
  inputCount : Int
  outputCount : Int
  openDevice : ℚ → Nat → Option String
  effBufferSize : Nat
  effSampleRate : ℚ

/-- `setBufferSizeAndSampleRate` (CarlaEngineJuce.cpp lines 357-418): requires a device
(`CARLA_SAFE_ASSERT_RETURN(fDevice != nullptr, false)`); fails when the device reports
no outputs; stops and closes the stream; reopens with the new parameters. If that open
fails, the error is recorded and a rollback reopen with the previous `pData->sampleRate`
and `pData->bufferSize` is attempted: if the rollback also fails, `fDevice` is nulled
and `close()` runs; either way the call returns `false`. On success the effective
values are read back, `sampleRateChanged` fires only when the effective sample rate
differs from the previous one, `bufferSizeChanged` only when the effective buffer size
differs from the previous one, and the stream is restarted. -/
def setBufferSizeAndSampleRate (st : EngineState) (env : DeviceEnv)
    (bufferSize : Nat) (sampleRate : ℚ) : Bool × EngineState × List EngineCallback :=
  if ¬ st.hasDevice then (false, st, [])
  else if env.inputCount < 0 ∨ env.outputCount ≤ 0 then
    (false, { st with lastError := some "Selected device does not have any outputs" }, [])
  else
    let stStopped := { st with devicePlaying := false, deviceOpen := false }
    match env.openDevice sampleRate bufferSize with
    | some err =>
      let stErr := { stStopped with lastError := some err }
      match env.openDevice st.sampleRate st.bufferSize with
      | some _ => (false, closeEngine { stErr with hasDevice := false }, [])
      | none => (false, { stErr with deviceOpen := true }, [])
    | none =>
      let srNotifs :=
        if st.sampleRate ≠ env.effSampleRate
        then [EngineCallback.sampleRateChanged env.effSampleRate] else []
      let bsNotifs :=
        if st.bufferSize ≠ env.effBufferSize
        then [EngineCallback.bufferSizeChanged env.effBufferSize] else []
      (true,
       { stStopped with
         deviceOpen := true
         devicePlaying := true
         sampleRate := env.effSampleRate
         bufferSize := env.effBufferSize },
       srNotifs ++ bsNotifs)

/-- The caller-supplied options consumed by `init`: process mode, requested device name
(empty = use the default device), and the requested sample rate / buffer size. -/
structure EngineOptions where
  processMode : ProcessMode
  audioDevice : String
  audioSampleRate : ℚ
  audioBufferSize : Nat

/-- The device-side environment of `init`: the default device name when one exists
(the check `defaultIndex >= 0 && defaultIndex < deviceNames.size()`), whether
`createDevice` returns non-null, the channel counts, the outcome of the device `open`
call, whether `pData->init` succeeds, and the effective buffer size / sample rate read
back from the opened device. -/
structure InitEnv where
  defaultDeviceName : Option String
  createDeviceOk : Bool
  inputCount : Int
  outputCount : Int
  openError : Option String
  internalInitOk : Bool
  effBufferSize : Nat
  effSampleRate : ℚ

/-- `init` (CarlaEngineJuce.cpp lines 154-249): rejects an empty client name (safe
assert, no last error); rejects any process mode other than continuous-rack and
patchbay with "Invalid process mode"; resolves the device name (caller option, else the
default device) and fails when the result is empty; fails when `createDevice` returns
null (`fDevice` stays null); fails when the device has no outputs (note: `fDevice` is
retained on this path); fails when the device `open` call reports an error, releasing
`fDevice`; fails when the internal data init fails, running `close()`. On success it
caches the effective buffer size and sample rate, creates the graph, starts the device
and emits `ENGINE_CALLBACK_ENGINE_STARTED` (the success-path patchbay refresh is
modelled separately by `refreshExternalGraphPorts`). -/
def init (st : EngineState) (opts : EngineOptions) (env : InitEnv)
    (clientName : String) : Bool × EngineState × List EngineCallback :=
  if clientName = "" then (false, st, [])
  else if opts.processMode ≠ ProcessMode.continuousRack ∧
          opts.processMode ≠ ProcessMode.patchbay then
    (false, { st with lastError := some "Invalid process mode" }, [])
  else
    let deviceName : String :=
      if opts.audioDevice ≠ "" then opts.audioDevice
      else env.defaultDeviceName.getD ""
    if deviceName = "" then
      let msg := "Audio device has not been selected yet and a default one is not available"
      (false, { st with lastError := some msg }, [])
    else
      let stCreated := { st with hasDevice := env.createDeviceOk }
      if ¬ env.createDeviceOk then
        (false, { stCreated with lastError := some "Failed to create device" }, [])
      else if env.inputCount < 0 ∨ env.outputCount ≤ 0 then
        (false,
         { stCreated with lastError := some "Selected device does not have any outputs" },
         [])
      else
        match env.openError with
        | some err =>
          (false, { stCreated with lastError := some err, hasDevice := false }, [])
        | none =>
          let stOpen := { stCreated with deviceOpen := true }
          if ¬ env.internalInitOk then
            (false,
             { closeEngine stOpen with lastError := some "Failed to init internal data" },
             [])
          else
            (true,
             { stOpen with
               bufferSize := env.effBufferSize
               sampleRate := env.effSampleRate
               graphReady := true
               devicePlaying := true },
             [EngineCallback.engineStarted])

/-- The external-graph connection types of `kExternalGraphConnection*`. -/
inductive ExternalConnectionType
  | null
  | audioIn1
  | audioIn2
  | audioOut1
  | audioOut2
  | midiInput
  | midiOutput
deriving DecidableEq, Repr

/-- The endpoint-list scan shared by the two MIDI branches of
`disconnectExternalGraphPort` (CarlaEngineJuce.cpp lines 848-882): the first endpoint
whose stored name equals `portName` is stopped, deleted and removed from the list, and
the call returns `true`; when no name matches the list is unchanged and the call
returns `false`. -/
def removeFirstByName : List (String × String) → String → Bool × List (String × String)
  | [], _ => (false, [])
  | p :: rest, portName =>
    if p.1 = portName then (true, rest)
    else
      let r := removeFirstByName rest portName
      (r.1, p :: r.2)

/-- `disconnectExternalGraphPort` (CarlaEngineJuce.cpp lines 835-886): audio connection
types delegate to the base engine (`CarlaEngine::disconnectExternalGraphPort` operates
on the rack audio connection state and never touches `fMidiIns`/`fMidiOuts`, which are
private to this class; its boolean result is the environment value `baseResult`);
`midiInput` removes the first matching endpoint from `fMidiIns`, `midiOutput` from
`fMidiOuts`; anything else returns `false` without mutation. -/
def disconnectExternalGraphPort (st : EngineState) (baseResult : Bool)
    (ct : ExternalConnectionType) (portName : String) : Bool × EngineState :=
  match ct with
  | .audioIn1 | .audioIn2 | .audioOut1 | .audioOut2 => (baseResult, st)
  | .midiInput =>
    let r := removeFirstByName st.midiIns portName
    (r.1, { st with midiIns := r.2 })
  | .midiOutput =>
    let r := removeFirstByName st.midiOuts portName
    (r.1, { st with midiOuts := r.2 })
  | .null => (false, st)

/-- `kExternalGraphGroup*` ids (stable integer group ids of the external graph). -/
def kExternalGraphGroupCarla : Nat := 1

def kExternalGraphGroupAudioIn : Nat := 2

def kExternalGraphGroupAudioOut : Nat := 3

def kExternalGraphGroupMidiIn : Nat := 4

def kExternalGraphGroupMidiOut : Nat := 5

/-- `kExternalGraphCarlaPort*` ids of the engine's own ports inside the Carla group. -/
def kExternalGraphCarlaPortMidiIn : Nat := 5

def kExternalGraphCarlaPortMidiOut : Nat := 6

/-- `PortNameToId`: one Port Descriptor — group id, port id, human-readable name and
optional stable identifier string. -/
structure PortNameToId where
  group : Nat
  port : Nat
  name : String
  identifier : String
deriving DecidableEq, Repr

/-- `ConnectionToId`: one Connection Record — the unique connection id and the
`(groupA, portA) -> (groupB, portB)` endpoint pair. -/
structure ConnectionToId where
  id : Nat
  groupA : Nat
  portA : Nat
  groupB : Nat
  portB : Nat
deriving DecidableEq, Repr

/-- The `(groupA, portA, groupB, portB)` content of a Connection Record, with the
connection id dropped — what must be preserved across a content-idempotent refresh. -/
def ConnectionToId.endpoints (c : ConnectionToId) : Nat × Nat × Nat × Nat :=
  (c.groupA, c.portA, c.groupB, c.portB)

/-- `ExternalGraph`: the four ordered Port Descriptor sequences, the Connection Record
list and the connection-id counter (`connections.lastId`). -/
structure ExternalGraph where
  audioIns : List PortNameToId
  audioOuts : List PortNameToId
  midiIns : List PortNameToId
  midiOuts : List PortNameToId
  connections : List ConnectionToId
  lastId : Nat
deriving DecidableEq, Repr

/-- Modelled from the spec: `ExternalGraph::clear` (CarlaEngineGraph.cpp, not among the
sources in scope) empties the four Port Descriptor sequences and the Connection Record
list; per the spec invariant "connection ids are never reused within a session; the id
counter only increases", the counter survives the clear. -/
def ExternalGraph.clear (g : ExternalGraph) : ExternalGraph :=
  { audioIns := []
    audioOuts := []
    midiIns := []
    midiOuts := []
    connections := []
    lastId := g.lastId }

/-- Modelled from the spec: `PatchbayPortList::getPortIdFromIdentifier`
(CarlaEngineGraph, not among the sources in scope) resolves an endpoint's stable
identifier to its port id in the given Port Descriptor sequence, reporting failure when
no descriptor matches. -/
def getPortIdFromIdentifier (ports : List PortNameToId) (ident : String) : Option Nat :=
  (ports.find? fun p => p.identifier == ident).map (fun p => p.port)

/-- The device/system enumeration visible to `refreshExternalGraphPorts`: the device's
input/output channel names, the system-visible MIDI input/output devices as
`(name, identifier)` pairs, and the device name used for the host notification. -/
structure Enumeration where
  inputChannelNames : List String
  outputChannelNames : List String
  midiInDevices : List (String × String)
  midiOutDevices : List (String × String)
  deviceName : String

/-- The audio-in Port Descriptors built at CarlaEngineJuce.cpp lines 447-458: one per
input channel name, group `kExternalGraphGroupAudioIn`, 1-based sequential port ids,
empty identifier. -/
def audioInPorts (env : Enumeration) : List PortNameToId :=
  env.inputChannelNames.enum.map fun p =>
    { group := kExternalGraphGroupAudioIn, port := p.1 + 1, name := p.2, identifier := "" }

/-- The audio-out Port Descriptors built at CarlaEngineJuce.cpp lines 460-471. -/
def audioOutPorts (env : Enumeration) : List PortNameToId :=
  env.outputChannelNames.enum.map fun p =>
    { group := kExternalGraphGroupAudioOut, port := p.1 + 1, name := p.2, identifier := "" }

/-- The midi-in Port Descriptors built at CarlaEngineJuce.cpp lines 473-490: one per
system MIDI input device, skipping any named "a2jmidid - port"; the port id is the
1-based position in the unfiltered enumeration (the loop index keeps counting across
skipped entries). -/
def midiInPorts (env : Enumeration) : List PortNameToId :=
  (env.midiInDevices.enum.filter fun p => p.2.1 != "a2jmidid - port").map fun p =>
    { group := kExternalGraphGroupMidiIn
      port := p.1 + 1
      name := p.2.1
      identifier := p.2.2 }

/-- The midi-out Port Descriptors built at CarlaEngineJuce.cpp lines 492-509. -/
def midiOutPorts (env : Enumeration) : List PortNameToId :=
  (env.midiOutDevices.enum.filter fun p => p.2.1 != "a2jmidid - port").map fun p =>
    { group := kExternalGraphGroupMidiOut
      port := p.1 + 1
      name := p.2.1
      identifier := p.2.2 }

/-- The user-facing device label recomputed at CarlaEngineJuce.cpp lines 516-519: the
device name with everything from the first ", " on dropped. -/
def stripDeviceSuffix (s : String) : String :=
  (s.splitOn ", ").headD ""

/-- The `"%i:%i:%i:%i"` payload formatted for a connection-added callback
(CarlaEngineJuce.cpp lines 539-540 and 565-566). -/
def connPayload (c : ConnectionToId) : String :=
  toString c.groupA ++ ":" ++ toString c.portA ++ ":" ++
    toString c.groupB ++ ":" ++ toString c.portB

/-- The Connection Record built for one open MIDI input endpoint (CarlaEngineJuce.cpp
line 537): external MIDI-in group/port to the engine's internal MIDI-in port. -/
def mkInConnection (portId newId : Nat) : ConnectionToId :=
  { id := newId
    groupA := kExternalGraphGroupMidiIn
    portA := portId
    groupB := kExternalGraphGroupCarla
    portB := kExternalGraphCarlaPortMidiIn }

/-- The Connection Record built for one open MIDI output endpoint (CarlaEngineJuce.cpp
line 563): the engine's internal MIDI-out port to the external MIDI-out group/port. -/
def mkOutConnection (portId newId : Nat) : ConnectionToId :=
  { id := newId
    groupA := kExternalGraphGroupCarla
    portA := kExternalGraphCarlaPortMidiOut
    groupB := kExternalGraphGroupMidiOut
    portB := portId }

/-- One connection-building loop of `refreshExternalGraphPorts` (lines 527-549 for the
inputs, 553-575 for the outputs): for each open endpoint, its identifier is resolved
against the just-rebuilt Port Descriptors (`CARLA_SAFE_ASSERT_UINT_CONTINUE` skips
endpoints that fail to resolve); a record is built by `mk` with the pre-incremented
counter `++lastId`, a connection-added callback with the formatted payload is emitted,
and the record is appended. Returns the records, the callbacks and the final counter. -/
def addConnections (ports : List PortNameToId) (mk : Nat → Nat → ConnectionToId) :
    List (String × String) → Nat → List ConnectionToId × List EngineCallback × Nat
  | [], lastId => ([], [], lastId)
  | ep :: rest, lastId =>
    match getPortIdFromIdentifier ports ep.2 with
    | none => addConnections ports mk rest lastId
    | some portId =>
      let c := mk portId (lastId + 1)
      let r := addConnections ports mk rest (lastId + 1)
      (c :: r.1, EngineCallback.connectionAdded c.id (connPayload c) :: r.2.1, r.2.2)

/-- `refreshExternalGraphPorts` (CarlaEngineJuce.cpp lines 430-580): requires a graph
(modelled by construction); clears the external graph; rebuilds the four Port
Descriptor sequences from the current device and system enumeration; when notification
is requested, emits the topology notification with the stripped device label
(`graph->refresh`, line 521); finally derives one Connection Record per resolvable open
MIDI input endpoint and then per open MIDI output endpoint, each with a freshly
incremented connection id and a connection-added callback. -/
def refreshExternalGraphPorts (g : ExternalGraph) (env : Enumeration)
    (midiInsOpen midiOutsOpen : List (String × String)) (sendHost sendOSC : Bool) :
    Bool × ExternalGraph × List EngineCallback :=
  let g1 : ExternalGraph :=
    { g.clear with
      audioIns := audioInPorts env
      audioOuts := audioOutPorts env
      midiIns := midiInPorts env
      midiOuts := midiOutPorts env }
  let hostNotifs :=
    if sendHost || sendOSC
    then [EngineCallback.patchbayRefreshed (stripDeviceSuffix env.deviceName)] else []
  let rIn := addConnections g1.midiIns mkInConnection midiInsOpen g1.lastId
  let rOut := addConnections g1.midiOuts mkOutConnection midiOutsOpen rIn.2.2
  (true,
   { g1 with connections := rIn.1 ++ rOut.1, lastId := rOut.2.2 },
   hostNotifs ++ rIn.2.1 ++ rOut.2.1)

/-- `patchbayRefresh` (CarlaEngineJuce.cpp lines 582-598): fails when the processing
graph is not ready (`CARLA_SAFE_ASSERT_RETURN(pData->graph.isReady(), false)`); in
continuous-rack mode it refreshes the rack's external graph; in patchbay mode with
`external` set it refreshes the patchbay's external graph; in patchbay mode without
`external` it delegates to the base engine's refresh of the internal plugin graph
(outside the sources in scope, its boolean result is the environment value
`baseResult`; it does not touch the external graph). -/
def patchbayRefresh (graphReady : Bool) (mode : ProcessMode) (external : Bool)
    (baseResult : Bool) (g : ExternalGraph) (env : Enumeration)
    (midiInsOpen midiOutsOpen : List (String × String)) (sendHost sendOSC : Bool) :
    Bool × ExternalGraph × List EngineCallback :=
  if ¬ graphReady then (false, g, [])
  else if mode = ProcessMode.continuousRack then
    refreshExternalGraphPorts g env midiInsOpen midiOutsOpen sendHost sendOSC
  else if external then
    refreshExternalGraphPorts g env midiInsOpen midiOutsOpen sendHost sendOSC
  else
    (baseResult, g, [])

/-- The failure outcome required of `init` by the error-handling design: the call
returns `false`, a retrievable last-error message is set, no device handle is retained
and the engine is not running. -/
def initFailureOutcome (r : Bool × EngineState × List EngineCallback) : Prop :=
  r.1 = false ∧ (r.2.1).lastError.isSome = true ∧ (r.2.1).hasDevice = false ∧
    isRunning r.2.1 = false

/-- Whether an engine callback is a patchbay connection-added notification. -/
def isConnectionAddedCallback : EngineCallback → Bool
  | .connectionAdded _ _ => true
  | _ => false

/-- A concrete running engine state used by the closed witness theorems. -/
def sampleRunningState : EngineState :=
  { hasDevice := true
    deviceOpen := true
    devicePlaying := true
    bufferSize := 256
    sampleRate := 44100
    graphReady := true
    midiIns := [("KeyLab", "id-keylab")]
    midiOuts := [("Synth", "id-synth")]
    lastError := none }

/-- A concrete closed engine state used by the closed witness theorems. -/
def sampleClosedState : EngineState :=
  { hasDevice := false
    deviceOpen := false
    devicePlaying := false
    bufferSize := 0
    sampleRate := 0
    graphReady := false
    midiIns := []
    midiOuts := []
    lastError := none }

/-- A concrete device/system enumeration used by the closed witness theorems. -/
def sampleEnumeration : Enumeration :=
  { inputChannelNames := ["in L", "in R"]
    outputChannelNames := ["out L", "out R"]
    midiInDevices := [("KeyLab", "id-keylab"), ("a2jmidid - port", "id-a2j")]
    midiOutDevices := [("Synth", "id-synth")]
    deviceName := "HDA Intel, ALC287 Analog" }

/-- A concrete external graph with a nonzero connection counter, used by the closed
witness theorems. -/
def sampleGraph : ExternalGraph :=
  { audioIns := []
    audioOuts := []
    midiIns := []
    midiOuts := []
    connections := []
    lastId := 7 }

/-- The device environment used by the C3 witness: every open attempt fails. -/
def sampleFatalDeviceEnv : DeviceEnv :=
  { inputCount := 2
    outputCount := 2
    openDevice := fun _ _ => some "device open failed"
    effBufferSize := 512
    effSampleRate := 48000 }

/-- The device environment used by the C4 witness: the reopen succeeds, the requested
sample rate 44100 is unchanged and the buffer size snaps to the requested 512. -/
def sampleSnapDeviceEnv : DeviceEnv :=
  { inputCount := 2
    outputCount := 2
    openDevice := fun _ _ => none
    effBufferSize := 512
    effSampleRate := 44100 }

/-- The options used by the C6 witness: an invalid (single-client) process mode. -/
def sampleBadModeOptions : EngineOptions :=
  { processMode := ProcessMode.singleClient
    audioDevice := "HDA Intel"
    audioSampleRate := 44100
    audioBufferSize := 256 }

/-- The options used by the C6 witness for the remaining cases: a valid rack mode with
an explicitly named device. -/
def sampleRackOptions : EngineOptions :=
  { processMode := ProcessMode.continuousRack
    audioDevice := "HDA Intel"
    audioSampleRate := 44100
    audioBufferSize := 256 }

/-- The options used by the C6 witness for the no-device case: a valid rack mode with
no device named. -/
def sampleNoDeviceOptions : EngineOptions :=
  { processMode := ProcessMode.continuousRack
    audioDevice := ""
    audioSampleRate := 44100
    audioBufferSize := 256 }

/-- The init environment used by the C6 witness: no default device, device creation
fails. -/
def sampleFailingInitEnv : InitEnv :=
  { defaultDeviceName := none
    createDeviceOk := false
    inputCount := 2
    outputCount := 2
    openError := none
    internalInitOk := true
    effBufferSize := 256
    effSampleRate := 44100 }

/-- The init environment used by the C6 witness for the open-error case. -/
def sampleOpenErrorInitEnv : InitEnv :=
  { defaultDeviceName := none
    createDeviceOk := true
    inputCount := 2
    outputCount := 2
    openError := some "Could not open device"
    internalInitOk := true
    effBufferSize := 256
    effSampleRate := 44100 }

end Carla

namespace Carla

/-- C1: the claim states that a raw event timestamped at or after
`periodStart + periodLength` yields engine-event offset `periodLength - 1`. The code
(CarlaEngineJuce.cpp line 644) instead writes
`engineEvent.time = uint32(periodStart) + periodLength - 1` — an absolute frame index.
At period start 100 and period length 4, an event timestamped 200 gets time
103 = 100 + 4 - 1, which lies outside the valid offset range `[0, periodLength)` that
the other two branches of the very same computation produce (checked here at
timestamps 99 and 102), instead of the claimed offset 3. -/
theorem C1_future_event_offset_bug :
    clampEventTime 100 4 200 = 103 ∧
    drainOffsets 100 4 kMaxEngineEventInternalCount
      [{ time := 200, size := 3, data := [144, 60, 100, 0] }] = [103] ∧
    (103 : Nat) ≠ 4 - 1 ∧
    clampEventTime 100 4 99 = 0 ∧
    clampEventTime 100 4 102 = 2 := by
  decide

/-- C2 counterexample: with configured buffer size 4, a callback invocation delivering
period length 2 (the mismatch path) and one output buffer holding stale samples
`[5, 6]` returns with the buffer still holding `[5, 6]`, not silence: the
`CARLA_SAFE_ASSERT_RETURN(numSamples == pData->bufferSize)` at line 615 runs before the
zeroing loop at lines 618-619, so the mismatch path leaves stale data. -/
theorem C2_mismatch_counterexample :
    audioDeviceIOCallbackOutputs 4 id 0 1 2 true [[5, 6]] = [[5, 6]] ∧
    [[(5 : Int), 6]] ≠ zeroOutputs 1 2 [[(5 : Int), 6]] := by
  decide

/-- C2 amended: all output sample buffers are zeroed before any processing exactly on
the invocations that pass the defensive checks (non-negative channel and sample counts,
at least one output channel, non-null output array, and delivered period length equal
to the configured buffer size) — on those, any path producing no samples leaves
silence; every defensive early-return path, including the period-length mismatch,
returns before the zeroing loop and leaves the previous buffer contents in place. -/
theorem C2_zeroing_amended (bufferSize : Nat)
    (graphProcess : List (List Int) → List (List Int))
    (numInputChannels numOutputChannels numSamples : Int)
    (outputDataValid : Bool) (outputs : List (List Int)) :
    audioDeviceIOCallbackOutputs bufferSize graphProcess numInputChannels
        numOutputChannels numSamples outputDataValid outputs =
      if 0 ≤ numInputChannels ∧ 0 < numOutputChannels ∧ outputDataValid = true ∧
          numSamples = (bufferSize : Int)
      then graphProcess (zeroOutputs numOutputChannels.toNat bufferSize outputs)
      else outputs := by
  unfold audioDeviceIOCallbackOutputs
  split_ifs <;>
    first
      | rfl
      | (exfalso; simp_all; all_goals omega)

/-- C5: the xrun query reports the delta of the hardware count over the stored baseline
when the hardware count is positive and exceeds the baseline, and 0 in every other case
(hardware count zero or negative, or not exceeding the baseline); the result is a
natural number, never a negative delta; and immediately after a clear — which stores
the hardware count floored at 0 as the new baseline — a query against an unchanged
hardware count reports 0. -/
theorem C5_xrun_delta (hardware : Int) (baseline : Nat) :
    getTotalXruns hardware baseline =
      (if 0 < hardware ∧ baseline < hardware.toNat
       then hardware.toNat - baseline else 0) ∧
    getTotalXruns hardware (clearXruns hardware) = 0 := by
  unfold getTotalXruns clearXruns
  constructor
  · split_ifs <;> omega
  · split_ifs <;> omega

/-- C10: every raw MIDI event the input callback accepts carries arrival timestamp 0
(`midiEvent.time = 0; // TODO`, line 741), and therefore, in any period whose start
frame is positive, the render callback's clamping rule assigns it engine-event
offset 0. -/
theorem C10_midi_in_time_always_zero (messageSize : Int) (messageData : List Nat)
    (e : RtMidiEvent) (frame nframes : Nat)
    (he : handleIncomingMidiMessage messageSize messageData = some e)
    (hframe : 0 < frame) :
    e.time = 0 ∧ clampEventTime frame nframes e.time = 0 := by
  have ht : e.time = 0 := by
    unfold handleIncomingMidiMessage at he
    split at he
    · exact absurd he (by simp)
    · injection he with h
      subst h
      rfl
  refine ⟨ht, ?_⟩
  rw [ht]
  unfold clampEventTime
  rw [if_pos hframe]

/-- C10 witness: a concrete 3-byte note-on message arriving in a period starting at
frame 256 of length 256. -/
theorem C10_midi_in_time_always_zero_witness :
    RtMidiEvent.time { time := 0, size := 3, data := [144, 60, 100, 0] } = 0 ∧
    clampEventTime 256 256
      (RtMidiEvent.time { time := 0, size := 3, data := [144, 60, 100, 0] }) = 0 :=
  C10_midi_in_time_always_zero 3 [144, 60, 100]
    { time := 0, size := 3, data := [144, 60, 100, 0] } 256 256 (by decide) (by decide)

/-- C3: when the reopen with the new parameters fails, a rollback reopen with the
previous `pData->sampleRate` / `pData->bufferSize` decides the outcome and the call
returns failure either way: if the rollback succeeds the device is back open (though
stopped); if the rollback also fails, the engine transitions to the closed state — the
device handle is released, both MIDI endpoint registries are cleared, the graph is
destroyed and `isRunning` is false. -/
theorem C3_reconfigure_rollback (st : EngineState) (env : DeviceEnv)
    (bufferSize : Nat) (sampleRate : ℚ) (err : String)
    (hdev : st.hasDevice = true)
    (hin : 0 ≤ env.inputCount) (hout : 0 < env.outputCount)
    (hfail : env.openDevice sampleRate bufferSize = some err) :
    (setBufferSizeAndSampleRate st env bufferSize sampleRate).1 = false ∧
    (env.openDevice st.sampleRate st.bufferSize = none →
      ((setBufferSizeAndSampleRate st env bufferSize sampleRate).2.1).deviceOpen = true ∧
      ((setBufferSizeAndSampleRate st env bufferSize sampleRate).2.1).hasDevice = true) ∧
    (∀ err2, env.openDevice st.sampleRate st.bufferSize = some err2 →
      ((setBufferSizeAndSampleRate st env bufferSize sampleRate).2.1).hasDevice = false ∧
      ((setBufferSizeAndSampleRate st env bufferSize sampleRate).2.1).deviceOpen = false ∧
      isRunning ((setBufferSizeAndSampleRate st env bufferSize sampleRate).2.1) = false ∧
      ((setBufferSizeAndSampleRate st env bufferSize sampleRate).2.1).midiIns = [] ∧
      ((setBufferSizeAndSampleRate st env bufferSize sampleRate).2.1).midiOuts = [] ∧
      ((setBufferSizeAndSampleRate st env bufferSize sampleRate).2.1).graphReady = false) := by
  have hdev' : ¬ ¬ (st.hasDevice = true) := not_not_intro hdev
  have hc : ¬ (env.inputCount < 0 ∨ env.outputCount ≤ 0) := by omega
  have key : setBufferSizeAndSampleRate st env bufferSize sampleRate =
      (match env.openDevice st.sampleRate st.bufferSize with
       | some _ =>
         (false,
          closeEngine
            { st with hasDevice := false, deviceOpen := false, devicePlaying := false,
                      lastError := some err },
          [])
       | none =>
         (false,
          { st with deviceOpen := true, devicePlaying := false, lastError := some err },
          [])) := by
    unfold setBufferSizeAndSampleRate
    rw [if_neg hdev', if_neg hc, hfail]
  rw [key]
  refine ⟨?_, ?_, ?_⟩
  · cases env.openDevice st.sampleRate st.bufferSize <;> rfl
  · intro hroll
    rw [hroll]
    exact ⟨rfl, hdev⟩
  · intro err2 hroll
    rw [hroll]
    exact ⟨rfl, rfl, rfl, rfl, rfl, rfl⟩

/-- C3 witness: reconfiguring the sample running engine against a device on which every
open attempt fails returns failure and leaves the engine closed with cleared endpoint
registries. -/
theorem C3_reconfigure_rollback_witness :
    (setBufferSizeAndSampleRate sampleRunningState sampleFatalDeviceEnv 512 48000).1
        = false ∧
    ((setBufferSizeAndSampleRate sampleRunningState
        sampleFatalDeviceEnv 512 48000).2.1).hasDevice = false ∧
    isRunning ((setBufferSizeAndSampleRate sampleRunningState
        sampleFatalDeviceEnv 512 48000).2.1) = false ∧
    ((setBufferSizeAndSampleRate sampleRunningState
        sampleFatalDeviceEnv 512 48000).2.1).midiIns = [] ∧
    ((setBufferSizeAndSampleRate sampleRunningState
        sampleFatalDeviceEnv 512 48000).2.1).midiOuts = [] := by
  obtain ⟨h1, -, h3⟩ :=
    C3_reconfigure_rollback sampleRunningState sampleFatalDeviceEnv 512 48000
      "device open failed" rfl (by norm_num [sampleFatalDeviceEnv])
      (by norm_num [sampleFatalDeviceEnv]) rfl
  obtain ⟨h4, h5, h6, h7, h8, -⟩ := h3 "device open failed" rfl
  exact ⟨h1, h4, h6, h7, h8⟩

/-- C4: on a successful reconfigure the call returns `true`; the sample-rate-changed
notification is fired, with the effective rate, if and only if the device's effective
sample rate differs from the previous one, and the buffer-size-changed notification if
and only if the effective buffer size differs from the previous one; when the device
snaps both values back to the unchanged effective values, no notification fires at all;
the cached state always takes the effective values. -/
theorem C4_reconfigure_notifications (st : EngineState) (env : DeviceEnv)
    (bufferSize : Nat) (sampleRate : ℚ)
    (hdev : st.hasDevice = true)
    (hin : 0 ≤ env.inputCount) (hout : 0 < env.outputCount)
    (hok : env.openDevice sampleRate bufferSize = none) :
    (setBufferSizeAndSampleRate st env bufferSize sampleRate).1 = true ∧
    (EngineCallback.sampleRateChanged env.effSampleRate ∈
        (setBufferSizeAndSampleRate st env bufferSize sampleRate).2.2 ↔
      env.effSampleRate ≠ st.sampleRate) ∧
    (EngineCallback.bufferSizeChanged env.effBufferSize ∈
        (setBufferSizeAndSampleRate st env bufferSize sampleRate).2.2 ↔
      env.effBufferSize ≠ st.bufferSize) ∧
    (env.effSampleRate = st.sampleRate → env.effBufferSize = st.bufferSize →
      (setBufferSizeAndSampleRate st env bufferSize sampleRate).2.2 = []) ∧
    ((setBufferSizeAndSampleRate st env bufferSize sampleRate).2.1).sampleRate
        = env.effSampleRate ∧
    ((setBufferSizeAndSampleRate st env bufferSize sampleRate).2.1).bufferSize
        = env.effBufferSize := by
  have hdev' : ¬ ¬ (st.hasDevice = true) := not_not_intro hdev
  have hc : ¬ (env.inputCount < 0 ∨ env.outputCount ≤ 0) := by omega
  have key : setBufferSizeAndSampleRate st env bufferSize sampleRate =
      (true,
       { st with deviceOpen := true, devicePlaying := true,
                 sampleRate := env.effSampleRate, bufferSize := env.effBufferSize },
       (if st.sampleRate ≠ env.effSampleRate
        then [EngineCallback.sampleRateChanged env.effSampleRate] else []) ++
       (if st.bufferSize ≠ env.effBufferSize
        then [EngineCallback.bufferSizeChanged env.effBufferSize] else [])) := by
    unfold setBufferSizeAndSampleRate
    rw [if_neg hdev', if_neg hc, hok]
  rw [key]
  refine ⟨rfl, ?_, ?_, ?_, rfl, rfl⟩
  · show EngineCallback.sampleRateChanged env.effSampleRate ∈
        (if st.sampleRate ≠ env.effSampleRate
         then [EngineCallback.sampleRateChanged env.effSampleRate] else []) ++
        (if st.bufferSize ≠ env.effBufferSize
         then [EngineCallback.bufferSizeChanged env.effBufferSize] else []) ↔
      env.effSampleRate ≠ st.sampleRate
    by_cases hsr : st.sampleRate = env.effSampleRate
    · rw [if_neg (not_not_intro hsr)]
      constructor
      · intro hmem
        exfalso
        rcases List.mem_append.mp hmem with h | h
        · simp at h
        · split_ifs at h <;> simp_all
      · intro hne
        exact absurd hsr.symm hne
    · rw [if_pos hsr]
      constructor
      · intro _
        exact fun h => hsr h.symm
      · intro _
        exact List.mem_append.mpr (Or.inl (List.mem_singleton.mpr rfl))
  · show EngineCallback.bufferSizeChanged env.effBufferSize ∈
        (if st.sampleRate ≠ env.effSampleRate
         then [EngineCallback.sampleRateChanged env.effSampleRate] else []) ++
        (if st.bufferSize ≠ env.effBufferSize
         then [EngineCallback.bufferSizeChanged env.effBufferSize] else []) ↔
      env.effBufferSize ≠ st.bufferSize
    by_cases hbs : st.bufferSize = env.effBufferSize
    · rw [if_neg (not_not_intro hbs)]
      constructor
      · intro hmem
        exfalso
        rcases List.mem_append.mp hmem with h | h
        · split_ifs at h <;> simp_all
        · simp at h
      · intro hne
        exact absurd hbs.symm hne
    · rw [if_pos hbs]
      constructor
      · intro _
        exact fun h => hbs h.symm
      · intro _
        exact List.mem_append.mpr (Or.inr (List.mem_singleton.mpr rfl))
  · intro hsr hbs
    show ((if st.sampleRate ≠ env.effSampleRate
           then [EngineCallback.sampleRateChanged env.effSampleRate] else []) ++
          (if st.bufferSize ≠ env.effBufferSize
           then [EngineCallback.bufferSizeChanged env.effBufferSize] else [])) = []
    rw [if_neg (not_not_intro hsr.symm), if_neg (not_not_intro hbs.symm)]
    rfl

/-- C4 witness: `reconfigure(512, 44100)` on the sample running engine (previously at
buffer size 256, sample rate 44100) succeeds, fires no sample-rate-changed notification
(the rate is unchanged) and fires the buffer-size-changed notification (the size
differs). -/
theorem C4_reconfigure_notifications_witness :
    (setBufferSizeAndSampleRate sampleRunningState sampleSnapDeviceEnv 512 44100).1
        = true ∧
    (EngineCallback.sampleRateChanged sampleSnapDeviceEnv.effSampleRate ∈
        (setBufferSizeAndSampleRate sampleRunningState
          sampleSnapDeviceEnv 512 44100).2.2 ↔
      sampleSnapDeviceEnv.effSampleRate ≠ sampleRunningState.sampleRate) ∧
    (EngineCallback.bufferSizeChanged sampleSnapDeviceEnv.effBufferSize ∈
        (setBufferSizeAndSampleRate sampleRunningState
          sampleSnapDeviceEnv 512 44100).2.2 ↔
      sampleSnapDeviceEnv.effBufferSize ≠ sampleRunningState.bufferSize) := by
  obtain ⟨h1, h2, h3, -⟩ :=
    C4_reconfigure_notifications sampleRunningState sampleSnapDeviceEnv 512 44100
      rfl (by norm_num [sampleSnapDeviceEnv]) (by norm_num [sampleSnapDeviceEnv]) rfl
  exact ⟨h1, h2, h3⟩

/-- C6: starting from a closed engine and a non-empty client name, `init` fails
synchronously — returning `false`, setting a retrievable last-error message, retaining
no device handle and leaving the engine not running — in each of the four cases: the
configured process mode is neither continuous-rack nor patchbay; no device name is
configured and no default device exists; device creation returns null; or the device's
own `open` call reports an error. -/
theorem C6_init_failure_modes (st : EngineState) (opts : EngineOptions) (env : InitEnv)
    (clientName : String)
    (hcn : clientName ≠ "") (hclosed : st.hasDevice = false) :
    (opts.processMode ≠ ProcessMode.continuousRack ∧
        opts.processMode ≠ ProcessMode.patchbay →
      initFailureOutcome (init st opts env clientName)) ∧
    ((opts.processMode = ProcessMode.continuousRack ∨
        opts.processMode = ProcessMode.patchbay) →
      opts.audioDevice = "" → env.defaultDeviceName = none →
      initFailureOutcome (init st opts env clientName)) ∧
    ((opts.processMode = ProcessMode.continuousRack ∨
        opts.processMode = ProcessMode.patchbay) →
      opts.audioDevice ≠ "" → env.createDeviceOk = false →
      initFailureOutcome (init st opts env clientName)) ∧
    (∀ err, (opts.processMode = ProcessMode.continuousRack ∨
        opts.processMode = ProcessMode.patchbay) →
      opts.audioDevice ≠ "" → env.createDeviceOk = true →
      0 ≤ env.inputCount → 0 < env.outputCount → env.openError = some err →
      initFailureOutcome (init st opts env clientName)) := by
  have hmode : ∀ (p : ProcessMode), (p = ProcessMode.continuousRack ∨
      p = ProcessMode.patchbay) →
      ¬ (p ≠ ProcessMode.continuousRack ∧ p ≠ ProcessMode.patchbay) := by
    rintro p (rfl | rfl) ⟨h1, h2⟩
    · exact h1 rfl
    · exact h2 rfl
  refine ⟨?_, ?_, ?_, ?_⟩
  · intro hbad
    unfold init
    rw [if_neg hcn, if_pos hbad]
    exact ⟨rfl, rfl, hclosed, by unfold isRunning; rw [hclosed]; rfl⟩
  · intro hgood hnodev hnodefault
    unfold init
    rw [if_neg hcn, if_neg (hmode _ hgood)]
    simp [hnodev, hnodefault, initFailureOutcome, isRunning, hclosed]
  · intro hgood hdev hnocreate
    unfold init
    rw [if_neg hcn, if_neg (hmode _ hgood)]
    simp [hdev, hnocreate, initFailureOutcome, isRunning]
  · intro err hgood hdev hcreate hin hout hopen
    have hc : ¬ (env.inputCount < 0 ∨ env.outputCount ≤ 0) := by omega
    unfold init
    rw [if_neg hcn, if_neg (hmode _ hgood)]
    simp [hdev, hcreate, hc, hopen, initFailureOutcome, isRunning]

/-- C6 witness: each of the four failure cases evaluated on concrete inputs — bad
process mode, no device name with no default, null device creation, and a device open
error. -/
theorem C6_init_failure_modes_witness :
    initFailureOutcome (init sampleClosedState sampleBadModeOptions
      sampleFailingInitEnv "Carla") ∧
    initFailureOutcome (init sampleClosedState sampleNoDeviceOptions
      sampleFailingInitEnv "Carla") ∧
    initFailureOutcome (init sampleClosedState sampleRackOptions
      sampleFailingInitEnv "Carla") ∧
    initFailureOutcome (init sampleClosedState sampleRackOptions
      sampleOpenErrorInitEnv "Carla") := by
  refine ⟨?_, ?_, ?_, ?_⟩
  · exact (C6_init_failure_modes sampleClosedState sampleBadModeOptions
      sampleFailingInitEnv "Carla" (by decide) rfl).1 (by decide)
  · exact (C6_init_failure_modes sampleClosedState sampleNoDeviceOptions
      sampleFailingInitEnv "Carla" (by decide) rfl).2.1 (Or.inl rfl) rfl rfl
  · exact (C6_init_failure_modes sampleClosedState sampleRackOptions
      sampleFailingInitEnv "Carla" (by decide) rfl).2.2.1 (Or.inl rfl) (by decide) rfl
  · exact (C6_init_failure_modes sampleClosedState sampleRackOptions
      sampleOpenErrorInitEnv "Carla" (by decide) rfl).2.2.2 "Could not open device"
      (Or.inl rfl) (by decide) rfl (by norm_num [sampleOpenErrorInitEnv])
      (by norm_num [sampleOpenErrorInitEnv]) rfl

/-- `removeFirstByName` on a list with no matching name is a returning-false no-op. -/
theorem removeFirstByName_not_found (l : List (String × String)) (n : String)
    (h : ∀ p ∈ l, p.1 ≠ n) : removeFirstByName l n = (false, l) := by
  induction l with
  | nil => rfl
  | cons p rest ih =>
    unfold removeFirstByName
    rw [if_neg (h p (List.mem_cons_self p rest))]
    rw [ih (fun q hq => h q (List.mem_cons_of_mem p hq))]

/-- `removeFirstByName` on a list containing the name returns true and erases exactly
the first matching entry. -/
theorem removeFirstByName_found (l : List (String × String)) (n : String)
    (h : ∃ p ∈ l, p.1 = n) :
    (removeFirstByName l n).1 = true ∧
    (removeFirstByName l n).2 = l.eraseP (fun p => p.1 == n) ∧
    (removeFirstByName l n).2.length + 1 = l.length := by
  induction l with
  | nil => simp at h
  | cons p rest ih =>
    by_cases hp : p.1 = n
    · refine ⟨?_, ?_, ?_⟩ <;>
        simp [removeFirstByName, hp, List.eraseP_cons_of_pos]
    · obtain ⟨q, hq, hqn⟩ := h
      rcases List.mem_cons.mp hq with rfl | hq'
      · exact absurd hqn hp
      · obtain ⟨ih1, ih2, ih3⟩ := ih ⟨q, hq', hqn⟩
        refine ⟨?_, ?_, ?_⟩
        · simpa [removeFirstByName, hp] using ih1
        · have : (p.1 == n) = false := by simpa using hp
          simp [removeFirstByName, hp, List.eraseP_cons_of_neg, this, ih2]
        · simpa [removeFirstByName, hp] using ih3

/-- C7: a disconnect naming, in the given MIDI direction, an endpoint that is not
currently open returns `false` and leaves both the open MIDI input set and the open
MIDI output set unchanged; a disconnect naming an open endpoint returns `true` and
removes exactly the first endpoint of that name from that direction's set, leaving the
other direction's set untouched. -/
theorem C7_disconnect_endpoint (st : EngineState) (baseResult : Bool) (n : String) :
    ((∀ p ∈ st.midiIns, p.1 ≠ n) →
      disconnectExternalGraphPort st baseResult ExternalConnectionType.midiInput n
        = (false, st)) ∧
    ((∃ p ∈ st.midiIns, p.1 = n) →
      (disconnectExternalGraphPort st baseResult
          ExternalConnectionType.midiInput n).1 = true ∧
      (disconnectExternalGraphPort st baseResult
          ExternalConnectionType.midiInput n).2.midiIns
        = st.midiIns.eraseP (fun p => p.1 == n) ∧
      (disconnectExternalGraphPort st baseResult
          ExternalConnectionType.midiInput n).2.midiIns.length + 1
        = st.midiIns.length ∧
      (disconnectExternalGraphPort st baseResult
          ExternalConnectionType.midiInput n).2.midiOuts = st.midiOuts) ∧
    ((∀ p ∈ st.midiOuts, p.1 ≠ n) →
      disconnectExternalGraphPort st baseResult ExternalConnectionType.midiOutput n
        = (false, st)) ∧
    ((∃ p ∈ st.midiOuts, p.1 = n) →
      (disconnectExternalGraphPort st baseResult
          ExternalConnectionType.midiOutput n).1 = true ∧
      (disconnectExternalGraphPort st baseResult
          ExternalConnectionType.midiOutput n).2.midiOuts
        = st.midiOuts.eraseP (fun p => p.1 == n) ∧
      (disconnectExternalGraphPort st baseResult
          ExternalConnectionType.midiOutput n).2.midiOuts.length + 1
        = st.midiOuts.length ∧
      (disconnectExternalGraphPort st baseResult
          ExternalConnectionType.midiOutput n).2.midiIns = st.midiIns) := by
  refine ⟨?_, ?_, ?_, ?_⟩
  · intro h
    unfold disconnectExternalGraphPort
    rw [removeFirstByName_not_found st.midiIns n h]
  · intro h
    obtain ⟨h1, h2, h3⟩ := removeFirstByName_found st.midiIns n h
    exact ⟨h1, h2, h3, rfl⟩
  · intro h
    unfold disconnectExternalGraphPort
    rw [removeFirstByName_not_found st.midiOuts n h]
  · intro h
    obtain ⟨h1, h2, h3⟩ := removeFirstByName_found st.midiOuts n h
    exact ⟨h1, h2, h3, rfl⟩

/-- C7 witness: on the sample running state (one open input "KeyLab", one open output
"Synth"), disconnecting an unknown input name is a returning-false no-op, and
disconnecting the open output "Synth" returns true, empties the output set and leaves
the input set untouched. -/
theorem C7_disconnect_endpoint_witness :
    disconnectExternalGraphPort sampleRunningState true
      ExternalConnectionType.midiInput "Unknown" = (false, sampleRunningState) ∧
    (disconnectExternalGraphPort sampleRunningState true
      ExternalConnectionType.midiOutput "Synth").1 = true ∧
    (disconnectExternalGraphPort sampleRunningState true
      ExternalConnectionType.midiOutput "Synth").2.midiOuts
      = sampleRunningState.midiOuts.eraseP (fun p => p.1 == "Synth") ∧
    (disconnectExternalGraphPort sampleRunningState true
      ExternalConnectionType.midiOutput "Synth").2.midiIns
      = sampleRunningState.midiIns := by
  have h1 := (C7_disconnect_endpoint sampleRunningState true "Unknown").1 (by decide)
  have h2 := (C7_disconnect_endpoint sampleRunningState true "Synth").2.2.2 (by decide)
  exact ⟨h1, h2.1, h2.2.1, h2.2.2.2⟩

/-- The counter returned by one connection-building loop is its starting value plus the
number of records it created. -/
theorem addConnections_lastId (ports : List PortNameToId)
    (mk : Nat → Nat → ConnectionToId) (eps : List (String × String)) (lastId : Nat) :
    (addConnections ports mk eps lastId).2.2 =
      lastId + (addConnections ports mk eps lastId).1.length := by
  induction eps generalizing lastId with
  | nil => rfl
  | cons ep rest ih =>
    cases hp : getPortIdFromIdentifier ports ep.2 with
    | none => simpa [addConnections, hp] using ih lastId
    | some pid =>
      simp only [addConnections, hp, List.length_cons]
      rw [ih (lastId + 1)]
      omega

/-- Every record created by one connection-building loop has an id strictly above the
starting counter and at most the final counter. -/
theorem addConnections_id_bounds (ports : List PortNameToId)
    (mk : Nat → Nat → ConnectionToId) (hmk : ∀ pid i, (mk pid i).id = i)
    (eps : List (String × String)) (lastId : Nat) :
    ∀ c ∈ (addConnections ports mk eps lastId).1,
      lastId < c.id ∧ c.id ≤ (addConnections ports mk eps lastId).2.2 := by
  induction eps generalizing lastId with
  | nil =>
    intro c hc
    simp [addConnections] at hc
  | cons ep rest ih =>
    intro c hc
    cases hp : getPortIdFromIdentifier ports ep.2 with
    | none =>
      simp only [addConnections, hp] at hc ⊢
      exact ih lastId c hc
    | some pid =>
      simp only [addConnections, hp, List.mem_cons] at hc ⊢
      have hfin := addConnections_lastId ports mk rest (lastId + 1)
      rcases hc with rfl | hc
      · rw [hmk]
        omega
      · have := ih (lastId + 1) c hc
        omega

/-- The ids of the records created by one connection-building loop are strictly
increasing in creation order. -/
theorem addConnections_pairwise (ports : List PortNameToId)
    (mk : Nat → Nat → ConnectionToId) (hmk : ∀ pid i, (mk pid i).id = i)
    (eps : List (String × String)) (lastId : Nat) :
    ((addConnections ports mk eps lastId).1.map (fun c => c.id)).Pairwise (· < ·) := by
  induction eps generalizing lastId with
  | nil => simp [addConnections]
  | cons ep rest ih =>
    cases hp : getPortIdFromIdentifier ports ep.2 with
    | none => simpa [addConnections, hp] using ih lastId
    | some pid =>
      simp only [addConnections, hp, List.map_cons]
      refine List.Pairwise.cons ?_ (ih (lastId + 1))
      intro b hb
      obtain ⟨c, hc, rfl⟩ := List.mem_map.mp hb
      have hcb := (addConnections_id_bounds ports mk hmk rest (lastId + 1) c hc).1
      rw [hmk]
      omega

/-- One connection-building loop emits exactly one connection-added callback per
record, carrying the record's id and formatted endpoint payload, in order. -/
theorem addConnections_notifs (ports : List PortNameToId)
    (mk : Nat → Nat → ConnectionToId) (eps : List (String × String)) (lastId : Nat) :
    (addConnections ports mk eps lastId).2.1 =
      (addConnections ports mk eps lastId).1.map
        (fun c => EngineCallback.connectionAdded c.id (connPayload c)) := by
  induction eps generalizing lastId with
  | nil => rfl
  | cons ep rest ih =>
    cases hp : getPortIdFromIdentifier ports ep.2 with
    | none => simpa [addConnections, hp] using ih lastId
    | some pid =>
      simp only [addConnections, hp, List.map_cons]
      rw [ih (lastId + 1)]

/-- When every open endpoint's identifier resolves against the Port Descriptors, one
connection-building loop creates exactly one record per endpoint. -/
theorem addConnections_length (ports : List PortNameToId)
    (mk : Nat → Nat → ConnectionToId) (eps : List (String × String)) (lastId : Nat)
    (h : ∀ ep ∈ eps, (getPortIdFromIdentifier ports ep.2).isSome = true) :
    (addConnections ports mk eps lastId).1.length = eps.length := by
  revert h
  induction eps generalizing lastId with
  | nil =>
    intro h
    rfl
  | cons ep rest ih =>
    intro h
    cases hp : getPortIdFromIdentifier ports ep.2 with
    | none =>
      have hx := h ep (List.mem_cons_self ep rest)
      rw [hp] at hx
      exact absurd hx (by simp)
    | some pid =>
      simp only [addConnections, hp, List.length_cons]
      rw [ih (lastId + 1) (fun q hq => h q (List.mem_cons_of_mem ep hq))]

/-- The `(group, port)` endpoint content of the records created by one
connection-building loop does not depend on the starting counter value — only the ids
do. -/
theorem addConnections_endpoints (ports : List PortNameToId)
    (mk : Nat → Nat → ConnectionToId)
    (hmk : ∀ pid a b, (mk pid a).endpoints = (mk pid b).endpoints)
    (eps : List (String × String)) (i j : Nat) :
    (addConnections ports mk eps i).1.map ConnectionToId.endpoints =
      (addConnections ports mk eps j).1.map ConnectionToId.endpoints := by
  induction eps generalizing i j with
  | nil => rfl
  | cons ep rest ih =>
    cases hp : getPortIdFromIdentifier ports ep.2 with
    | none =>
      simp only [addConnections, hp]
      exact ih i j
    | some pid =>
      simp only [addConnections, hp, List.map_cons]
      rw [hmk pid (i + 1) (j + 1), ih (i + 1) (j + 1)]

/-- With a ready graph, `patchbayRefresh` runs the external-graph refresh in
continuous-rack mode and in external patchbay mode. -/
theorem patchbayRefresh_runs_refresh (mode : ProcessMode) (external baseResult : Bool)
    (g : ExternalGraph) (env : Enumeration) (ins outs : List (String × String))
    (sendHost sendOSC : Bool)
    (h : mode = ProcessMode.continuousRack ∨ external = true) :
    patchbayRefresh true mode external baseResult g env ins outs sendHost sendOSC =
      refreshExternalGraphPorts g env ins outs sendHost sendOSC := by
  unfold patchbayRefresh
  rcases h with rfl | h
  · rw [if_neg (by simp), if_pos rfl]
  · by_cases hm : mode = ProcessMode.continuousRack
    · rw [if_neg (by simp), if_pos hm]
    · rw [if_neg (by simp), if_neg hm, if_pos h]

/-- The external-graph state produced by `refreshExternalGraphPorts`, written out: the
four Port Descriptor sequences are exactly the current enumeration's, and the
Connection Records are the input loop's output followed by the output loop's output,
the latter starting from the former's final counter. -/
theorem refreshExternalGraphPorts_result (g : ExternalGraph) (env : Enumeration)
    (ins outs : List (String × String)) (sendHost sendOSC : Bool) :
    refreshExternalGraphPorts g env ins outs sendHost sendOSC =
      (true,
       { audioIns := audioInPorts env
         audioOuts := audioOutPorts env
         midiIns := midiInPorts env
         midiOuts := midiOutPorts env
         connections :=
           (addConnections (midiInPorts env) mkInConnection ins g.lastId).1 ++
           (addConnections (midiOutPorts env) mkOutConnection outs
             (addConnections (midiInPorts env) mkInConnection ins g.lastId).2.2).1
         lastId :=
           (addConnections (midiOutPorts env) mkOutConnection outs
             (addConnections (midiInPorts env) mkInConnection ins g.lastId).2.2).2.2 },
       (if sendHost || sendOSC
        then [EngineCallback.patchbayRefreshed (stripDeviceSuffix env.deviceName)]
        else []) ++
       (addConnections (midiInPorts env) mkInConnection ins g.lastId).2.1 ++
       (addConnections (midiOutPorts env) mkOutConnection outs
         (addConnections (midiInPorts env) mkInConnection ins g.lastId).2.2).2.1) := by
  rfl


/-- A list of connection-added callbacks is invariant under filtering for
connection-added callbacks. -/
theorem filter_connection_added_map (l : List ConnectionToId) :
    (l.map (fun c => EngineCallback.connectionAdded c.id (connPayload c))).filter
        isConnectionAddedCallback =
      l.map (fun c => EngineCallback.connectionAdded c.id (connPayload c)) := by
  induction l with
  | nil => rfl
  | cons c rest ih => simp [isConnectionAddedCallback, ih]

/-- The endpoint content of the Connection Records rebuilt by
`refreshExternalGraphPorts` depends only on the enumeration and the open endpoint
lists, not on the prior graph (in particular not on its connection counter). -/
theorem refresh_connections_endpoints (g gp : ExternalGraph) (env : Enumeration)
    (ins outs : List (String × String)) (sendHost sendOSC sendHostP sendOSCP : Bool) :
    (refreshExternalGraphPorts gp env ins outs sendHostP sendOSCP).2.1.connections.map
        ConnectionToId.endpoints =
      (refreshExternalGraphPorts g env ins outs sendHost sendOSC).2.1.connections.map
        ConnectionToId.endpoints := by
  show ((addConnections (midiInPorts env) mkInConnection ins gp.lastId).1 ++
        (addConnections (midiOutPorts env) mkOutConnection outs
          (addConnections (midiInPorts env) mkInConnection ins gp.lastId).2.2).1).map
        ConnectionToId.endpoints =
      ((addConnections (midiInPorts env) mkInConnection ins g.lastId).1 ++
        (addConnections (midiOutPorts env) mkOutConnection outs
          (addConnections (midiInPorts env) mkInConnection ins g.lastId).2.2).1).map
        ConnectionToId.endpoints
  rw [List.map_append, List.map_append,
      addConnections_endpoints (midiInPorts env) mkInConnection (fun _ _ _ => rfl) ins
        gp.lastId g.lastId,
      addConnections_endpoints (midiOutPorts env) mkOutConnection (fun _ _ _ => rfl) outs
        (addConnections (midiInPorts env) mkInConnection ins gp.lastId).2.2
        (addConnections (midiInPorts env) mkInConnection ins g.lastId).2.2]

/-- C8: patchbay refresh returns `false` when the processing graph is not initialized;
otherwise (in the modes that rebuild the external registry: continuous-rack, or
patchbay with the external flag) it returns `true`, clears the four Port Descriptor
sequences and repopulates them wholesale from the current device and system
enumeration, so that a second refresh with unchanged topology returns descriptor
sequences of identical length and content and Connection Records with identical
`(group, port)` endpoint content and count — only the connection-id values may
differ. -/
theorem C8_patchbay_refresh_content (ready : Bool) (mode : ProcessMode)
    (external base : Bool) (g : ExternalGraph) (env : Enumeration)
    (ins outs : List (String × String)) (sendHost sendOSC : Bool) :
    (ready = false →
      patchbayRefresh ready mode external base g env ins outs sendHost sendOSC
        = (false, g, [])) ∧
    (ready = true → (mode = ProcessMode.continuousRack ∨ external = true) →
      (patchbayRefresh ready mode external base g env ins outs sendHost sendOSC).1
          = true ∧
      (patchbayRefresh ready mode external base g env ins outs
          sendHost sendOSC).2.1.audioIns = audioInPorts env ∧
      (patchbayRefresh ready mode external base g env ins outs
          sendHost sendOSC).2.1.audioOuts = audioOutPorts env ∧
      (patchbayRefresh ready mode external base g env ins outs
          sendHost sendOSC).2.1.midiIns = midiInPorts env ∧
      (patchbayRefresh ready mode external base g env ins outs
          sendHost sendOSC).2.1.midiOuts = midiOutPorts env ∧
      (patchbayRefresh ready mode external base
          (patchbayRefresh ready mode external base g env ins outs
            sendHost sendOSC).2.1 env ins outs sendHost sendOSC).1 = true ∧
      (patchbayRefresh ready mode external base
          (patchbayRefresh ready mode external base g env ins outs
            sendHost sendOSC).2.1 env ins outs sendHost sendOSC).2.1.audioIns =
        (patchbayRefresh ready mode external base g env ins outs
          sendHost sendOSC).2.1.audioIns ∧
      (patchbayRefresh ready mode external base
          (patchbayRefresh ready mode external base g env ins outs
            sendHost sendOSC).2.1 env ins outs sendHost sendOSC).2.1.audioOuts =
        (patchbayRefresh ready mode external base g env ins outs
          sendHost sendOSC).2.1.audioOuts ∧
      (patchbayRefresh ready mode external base
          (patchbayRefresh ready mode external base g env ins outs
            sendHost sendOSC).2.1 env ins outs sendHost sendOSC).2.1.midiIns =
        (patchbayRefresh ready mode external base g env ins outs
          sendHost sendOSC).2.1.midiIns ∧
      (patchbayRefresh ready mode external base
          (patchbayRefresh ready mode external base g env ins outs
            sendHost sendOSC).2.1 env ins outs sendHost sendOSC).2.1.midiOuts =
        (patchbayRefresh ready mode external base g env ins outs
          sendHost sendOSC).2.1.midiOuts ∧
      (patchbayRefresh ready mode external base
          (patchbayRefresh ready mode external base g env ins outs
            sendHost sendOSC).2.1 env ins outs sendHost sendOSC).2.1.connections.map
          ConnectionToId.endpoints =
        (patchbayRefresh ready mode external base g env ins outs
          sendHost sendOSC).2.1.connections.map ConnectionToId.endpoints ∧
      (patchbayRefresh ready mode external base
          (patchbayRefresh ready mode external base g env ins outs
            sendHost sendOSC).2.1 env ins outs sendHost sendOSC).2.1.connections.length
        = (patchbayRefresh ready mode external base g env ins outs
          sendHost sendOSC).2.1.connections.length) := by
  constructor
  · intro h
    subst h
    rfl
  · intro h hmode
    subst h
    have e1 := patchbayRefresh_runs_refresh mode external base g env ins outs
      sendHost sendOSC hmode
    have e2 := patchbayRefresh_runs_refresh mode external base
      (patchbayRefresh true mode external base g env ins outs sendHost sendOSC).2.1
      env ins outs sendHost sendOSC hmode
    rw [e2, e1]
    have hend := refresh_connections_endpoints g
      ((refreshExternalGraphPorts g env ins outs sendHost sendOSC).2.1) env ins outs
      sendHost sendOSC sendHost sendOSC
    have hlen : (refreshExternalGraphPorts
        ((refreshExternalGraphPorts g env ins outs sendHost sendOSC).2.1)
        env ins outs sendHost sendOSC).2.1.connections.length =
        (refreshExternalGraphPorts g env ins outs
          sendHost sendOSC).2.1.connections.length := by
      have := congrArg List.length hend
      simpa using this
    exact ⟨rfl, rfl, rfl, rfl, rfl, rfl, rfl, rfl, rfl, rfl, hend, hlen⟩

/-- C8 witness: with a ready graph in continuous-rack mode, against the sample
enumeration with one open input and one open output endpoint, the not-ready call fails
and two consecutive refreshes agree on descriptor and endpoint content; the not-ready
case is checked on the same inputs. -/
theorem C8_patchbay_refresh_content_witness :
    patchbayRefresh false ProcessMode.continuousRack false true sampleGraph
        sampleEnumeration [("KeyLab", "id-keylab")] [("Synth", "id-synth")] true false
      = (false, sampleGraph, []) ∧
    (patchbayRefresh true ProcessMode.continuousRack false true sampleGraph
        sampleEnumeration [("KeyLab", "id-keylab")] [("Synth", "id-synth")]
        true false).1 = true ∧
    (patchbayRefresh true ProcessMode.continuousRack false true
        (patchbayRefresh true ProcessMode.continuousRack false true sampleGraph
          sampleEnumeration [("KeyLab", "id-keylab")] [("Synth", "id-synth")]
          true false).2.1 sampleEnumeration [("KeyLab", "id-keylab")]
        [("Synth", "id-synth")] true false).2.1.midiIns =
      (patchbayRefresh true ProcessMode.continuousRack false true sampleGraph
        sampleEnumeration [("KeyLab", "id-keylab")] [("Synth", "id-synth")]
        true false).2.1.midiIns ∧
    (patchbayRefresh true ProcessMode.continuousRack false true
        (patchbayRefresh true ProcessMode.continuousRack false true sampleGraph
          sampleEnumeration [("KeyLab", "id-keylab")] [("Synth", "id-synth")]
          true false).2.1 sampleEnumeration [("KeyLab", "id-keylab")]
        [("Synth", "id-synth")] true false).2.1.connections.map
        ConnectionToId.endpoints =
      (patchbayRefresh true ProcessMode.continuousRack false true sampleGraph
        sampleEnumeration [("KeyLab", "id-keylab")] [("Synth", "id-synth")]
        true false).2.1.connections.map ConnectionToId.endpoints := by
  have h1 := (C8_patchbay_refresh_content false ProcessMode.continuousRack false true
    sampleGraph sampleEnumeration [("KeyLab", "id-keylab")] [("Synth", "id-synth")]
    true false).1 rfl
  obtain ⟨c1, -, -, -, -, -, -, -, c9, -, c11, -⟩ :=
    (C8_patchbay_refresh_content true ProcessMode.continuousRack false true
      sampleGraph sampleEnumeration [("KeyLab", "id-keylab")] [("Synth", "id-synth")]
      true false).2 rfl (Or.inl rfl)
  exact ⟨h1, c1, c9, c11⟩

/-- C9: within a session the connection-id counter only increases and ids are never
reused: every Connection Record created by an external-graph refresh has an id strictly
greater than the counter before the refresh, the ids are strictly increasing in
creation order, the counter afterwards equals the counter before plus the number of
records created (so every later id exceeds every earlier one), exactly one
connection-added notification carrying the record id and endpoint payload is emitted
per record, and — when every open endpoint identifier resolves against the enumerated
MIDI ports — exactly one record is created per open MIDI input endpoint and one per
open MIDI output endpoint. -/
theorem C9_connection_id_monotone (g : ExternalGraph) (env : Enumeration)
    (ins outs : List (String × String)) (sendHost sendOSC : Bool)
    (hin : ∀ ep ∈ ins,
      (getPortIdFromIdentifier (midiInPorts env) ep.2).isSome = true)
    (hout : ∀ ep ∈ outs,
      (getPortIdFromIdentifier (midiOutPorts env) ep.2).isSome = true) :
    (∀ c ∈ (refreshExternalGraphPorts g env ins outs sendHost sendOSC).2.1.connections,
      g.lastId < c.id) ∧
    ((refreshExternalGraphPorts g env ins outs
        sendHost sendOSC).2.1.connections.map (fun c => c.id)).Pairwise (· < ·) ∧
    ((refreshExternalGraphPorts g env ins outs sendHost sendOSC).2.1.lastId =
      g.lastId +
        (refreshExternalGraphPorts g env ins outs
          sendHost sendOSC).2.1.connections.length) ∧
    ((refreshExternalGraphPorts g env ins outs sendHost sendOSC).2.2.filter
        isConnectionAddedCallback =
      (refreshExternalGraphPorts g env ins outs sendHost sendOSC).2.1.connections.map
        (fun c => EngineCallback.connectionAdded c.id (connPayload c))) ∧
    ((refreshExternalGraphPorts g env ins outs
        sendHost sendOSC).2.1.connections.length = ins.length + outs.length) := by
  have hmkIn : ∀ pid i, (mkInConnection pid i).id = i := fun _ _ => rfl
  have hmkOut : ∀ pid i, (mkOutConnection pid i).id = i := fun _ _ => rfl
  have hA := addConnections_lastId (midiInPorts env) mkInConnection ins g.lastId
  have hB := addConnections_lastId (midiOutPorts env) mkOutConnection outs
    (addConnections (midiInPorts env) mkInConnection ins g.lastId).2.2
  have hAb := addConnections_id_bounds (midiInPorts env) mkInConnection hmkIn ins
    g.lastId
  have hBb := addConnections_id_bounds (midiOutPorts env) mkOutConnection hmkOut outs
    (addConnections (midiInPorts env) mkInConnection ins g.lastId).2.2
  refine ⟨?_, ?_, ?_, ?_, ?_⟩
  · intro c hc
    rcases List.mem_append.mp hc with h | h
    · exact (hAb c h).1
    · have := (hBb c h).1
      omega
  · show (((addConnections (midiInPorts env) mkInConnection ins g.lastId).1 ++
        (addConnections (midiOutPorts env) mkOutConnection outs
          (addConnections (midiInPorts env) mkInConnection ins g.lastId).2.2).1).map
        (fun c => c.id)).Pairwise (· < ·)
    rw [List.map_append]
    refine List.pairwise_append.mpr
      ⟨addConnections_pairwise (midiInPorts env) mkInConnection hmkIn ins g.lastId,
       addConnections_pairwise (midiOutPorts env) mkOutConnection hmkOut outs
         (addConnections (midiInPorts env) mkInConnection ins g.lastId).2.2, ?_⟩
    intro a ha b hb
    obtain ⟨c1, hc1, rfl⟩ := List.mem_map.mp ha
    obtain ⟨c2, hc2, rfl⟩ := List.mem_map.mp hb
    have h1 := (hAb c1 hc1).2
    have h2 := (hBb c2 hc2).1
    omega
  · show (addConnections (midiOutPorts env) mkOutConnection outs
        (addConnections (midiInPorts env) mkInConnection ins g.lastId).2.2).2.2 =
      g.lastId +
        ((addConnections (midiInPorts env) mkInConnection ins g.lastId).1 ++
          (addConnections (midiOutPorts env) mkOutConnection outs
            (addConnections (midiInPorts env) mkInConnection ins
              g.lastId).2.2).1).length
    rw [List.length_append]
    omega
  · show (((if sendHost || sendOSC
        then [EngineCallback.patchbayRefreshed (stripDeviceSuffix env.deviceName)]
        else []) ++
        (addConnections (midiInPorts env) mkInConnection ins g.lastId).2.1 ++
        (addConnections (midiOutPorts env) mkOutConnection outs
          (addConnections (midiInPorts env) mkInConnection ins
            g.lastId).2.2).2.1).filter isConnectionAddedCallback) =
      ((addConnections (midiInPorts env) mkInConnection ins g.lastId).1 ++
        (addConnections (midiOutPorts env) mkOutConnection outs
          (addConnections (midiInPorts env) mkInConnection ins g.lastId).2.2).1).map
        (fun c => EngineCallback.connectionAdded c.id (connPayload c))
    have hH : ((if sendHost || sendOSC
        then [EngineCallback.patchbayRefreshed (stripDeviceSuffix env.deviceName)]
        else []).filter isConnectionAddedCallback) = [] := by
      cases sendHost <;> cases sendOSC <;> rfl
    rw [List.filter_append, List.filter_append, hH, List.nil_append,
        addConnections_notifs, addConnections_notifs,
        filter_connection_added_map, filter_connection_added_map, List.map_append]
  · show ((addConnections (midiInPorts env) mkInConnection ins g.lastId).1 ++
        (addConnections (midiOutPorts env) mkOutConnection outs
          (addConnections (midiInPorts env) mkInConnection ins
            g.lastId).2.2).1).length = ins.length + outs.length
    rw [List.length_append,
        addConnections_length (midiInPorts env) mkInConnection ins g.lastId hin,
        addConnections_length (midiOutPorts env) mkOutConnection outs
          (addConnections (midiInPorts env) mkInConnection ins g.lastId).2.2 hout]

/-- C9 witness: a refresh of the sample graph (counter at 7) against the sample
enumeration with one open input endpoint and one open output endpoint creates records
with strictly increasing fresh ids, advances the counter by the record count, and
creates one record per open endpoint. -/
theorem C9_connection_id_monotone_witness :
    ((refreshExternalGraphPorts sampleGraph sampleEnumeration
        [("KeyLab", "id-keylab")] [("Synth", "id-synth")]
        true false).2.1.connections.map (fun c => c.id)).Pairwise (· < ·) ∧
    ((refreshExternalGraphPorts sampleGraph sampleEnumeration
        [("KeyLab", "id-keylab")] [("Synth", "id-synth")] true false).2.1.lastId =
      sampleGraph.lastId +
        (refreshExternalGraphPorts sampleGraph sampleEnumeration
          [("KeyLab", "id-keylab")] [("Synth", "id-synth")]
          true false).2.1.connections.length) ∧
    ((refreshExternalGraphPorts sampleGraph sampleEnumeration
        [("KeyLab", "id-keylab")] [("Synth", "id-synth")]
        true false).2.1.connections.length = 2) := by
  obtain ⟨-, c2, c3, -, c5⟩ :=
    C9_connection_id_monotone sampleGraph sampleEnumeration
      [("KeyLab", "id-keylab")] [("Synth", "id-synth")] true false
      (by decide) (by decide)
  exact ⟨c2, c3, c5⟩

end Carla
